import Mathlib

/-!
Verification of the Azure OpenAI provider adapter
(src/marvin/core/ChatCompletion/providers/azure/openai/__init__.py).

The adapter's `ChatCompletionSettings` class declares field defaults and is
constructed from layered sources: the process-wide settings object's
`azure_openai` sub-section, environment variables, a pre-configured global
client key, and explicit constructor keyword arguments.  The class body
contains TWO definitions of the constructor; under Python semantics the
second (later) definition shadows the first, so the effective constructor is
the second one.  Both are embedded here (`initFirst`, `initSecond`) so that
their relationship can be stated.

`ChatResponse` normalizes the raw vendor response: `message` returns the
single message when exactly one choice exists and an ordered list of
messages otherwise; `function_call` mirrors that arity branching.

Python value conventions used by the embedding: an optional string models a
possibly-absent / None value; Python truthiness of such a value (None and
the empty string are falsy) is `truthy`.  Numeric configuration fields are
only copied, never computed with, so `Int` and `Rat` stand in for Python
int and float.
-/

/-- One resolved `ChatCompletionSettings` record.  Field names and defaults
come from the class declaration in the source: `api_key : SecretStr = None`
(with declared environment variable `MARVIN_AZURE_OPENAI_API_KEY`),
`api_type = "azure"`, `api_base = None`, `api_version = "2023-07-01-preview"`,
`deployment_name = None`, `max_tokens = 1500`, `temperature = 0.8`,
`request_timeout = 600.0`.  The secret wrapper around `api_key` is modelled
at rendering time (`secretStrRender`); here the field holds the resolved
optional string value. -/
structure ChatCompletionSettings where
  api_key : Option String
  api_type : String
  api_base : Option String
  api_version : String
  deployment_name : Option String
  max_tokens : Int
  temperature : Rat
  request_timeout : Rat
deriving DecidableEq

/-- A Python keyword-argument dictionary restricted to the declared fields of
`ChatCompletionSettings`: each field is present (`some`) or absent (`none`).
The same shape models `model_dump(settings.azure_openai)` after the
constructor's filter keeps only keys in `self.__fields__` whose value is not
None, since a filtered-out key and an absent key are indistinguishable to
the subsequent dictionary merge. -/
structure Kwargs where
  api_key : Option String := none
  api_type : Option String := none
  api_base : Option String := none
  api_version : Option String := none
  deployment_name : Option String := none
  max_tokens : Option Int := none
  temperature : Option Rat := none
  request_timeout : Option Rat := none
deriving DecidableEq

/-- The process-wide `marvin.settings` object, as read by the constructors:
the `azure_openai` sub-section (its non-null dump), the three global LLM
tuning values (`llm_max_tokens`, `llm_temperature`,
`llm_request_timeout_seconds`, always concrete in the settings object), and
`settings.openai.api_key` (a secret, possibly unset). -/
structure GlobalSettings where
  azure_openai : Kwargs
  llm_max_tokens : Int
  llm_temperature : Rat
  llm_request_timeout_seconds : Rat
  openai_section_api_key : Option String
deriving DecidableEq

/-- The environment-variable store, restricted to the two variables the
module reads: `MARVIN_AZURE_OPENAI_API_KEY` and `OPENAI_API_KEY`. -/
structure Env where
  marvin_azure_openai_api_key : Option String
  openai_api_key : Option String
deriving DecidableEq

/-- Python truthiness of a possibly-absent string: None and the empty string
are falsy, every other string is truthy.  This is the test performed by the
walrus conditions `if key := os.environ.get(...)` and by
`if openai.api_key and not self.api_key` (an unset key is None; a set
secret of length zero is falsy). -/
def truthy : Option String → Bool
  | none => false
  | some s => s != ""

/-- Python dictionary-merge choice for one key of `{**defaults, **kwargs}`:
the keyword argument wins when present, otherwise the default entry (itself
possibly absent) is used. -/
def pick {α : Type} : Option α → Option α → Option α
  | some v, _ => some v
  | none, d => d

/-- The merged dictionary `{**defaults, **kwargs}` passed to
`super().__init__`, field by field. -/
def dictMerge (defaults kw : Kwargs) : Kwargs where
  api_key := pick kw.api_key defaults.api_key
  api_type := pick kw.api_type defaults.api_type
  api_base := pick kw.api_base defaults.api_base
  api_version := pick kw.api_version defaults.api_version
  deployment_name := pick kw.deployment_name defaults.deployment_name
  max_tokens := pick kw.max_tokens defaults.max_tokens
  temperature := pick kw.temperature defaults.temperature
  request_timeout := pick kw.request_timeout defaults.request_timeout

/-- Modelled from the spec: `BaseChatCompletionSettings.__init__` (the
pydantic-style base constructor from `marvin.core.ChatCompletion.base`,
which is not among the provided sources).  A field passed in the merged
keyword dictionary wins; for `api_key` alone the class declaration names
the environment variable `MARVIN_AZURE_OPENAI_API_KEY`, which is read when
the field is not supplied (the spec's provider-specific environment source,
consulted below explicit values); every remaining field takes the default
declared on the class. -/
def baseInit (env : Env) (m : Kwargs) : ChatCompletionSettings where
  api_key := pick m.api_key env.marvin_azure_openai_api_key
  api_type := Option.getD m.api_type "azure"
  api_base := m.api_base
  api_version := Option.getD m.api_version "2023-07-01-preview"
  deployment_name := m.deployment_name
  max_tokens := Option.getD m.max_tokens 1500
  temperature := Option.getD m.temperature 0.8
  request_timeout := Option.getD m.request_timeout 600

/-- The FIRST `__init__` definition in the class body (shadowed by the later
redefinition).  It builds `defaults` from the non-null `azure_openai`
sub-section dump, then unconditionally overwrites `max_tokens`,
`temperature` and `request_timeout` with the global LLM tuning values,
merges explicit keyword arguments on top, and calls the base constructor.
Afterwards, guarded by `openai.api_key or settings.azure_openai.api_key`,
it resolves the api key through the ordered fallback chain: environment
`MARVIN_AZURE_OPENAI_API_KEY`, environment `OPENAI_API_KEY`, the global
client key `openai.api_key`, then `settings.openai.api_key`.
`clientKey` is the pre-configured `marvin.openai.api_key`. -/
def initFirst (gs : GlobalSettings) (clientKey : Option String) (env : Env)
    (kw : Kwargs) : ChatCompletionSettings :=
  let defaults : Kwargs :=
    { gs.azure_openai with
      max_tokens := some gs.llm_max_tokens
      temperature := some gs.llm_temperature
      request_timeout := some gs.llm_request_timeout_seconds }
  let s := baseInit env (dictMerge defaults kw)
  if truthy clientKey || truthy gs.azure_openai.api_key then
    if truthy env.marvin_azure_openai_api_key then
      { s with api_key := env.marvin_azure_openai_api_key }
    else if truthy env.openai_api_key then
      { s with api_key := env.openai_api_key }
    else if truthy clientKey then
      { s with api_key := clientKey }
    else if truthy gs.openai_section_api_key then
      { s with api_key := gs.openai_section_api_key }
    else s
  else s

/-- The SECOND `__init__` definition in the class body: under Python
semantics it shadows the first and is the constructor that actually runs.
It merges only the non-null `azure_openai` sub-section dump below the
explicit keyword arguments (no global-tuning layer), calls the base
constructor, and then sets the api key from the pre-configured global
client key when `openai.api_key` is truthy and `self.api_key` is not. -/
def initSecond (gs : GlobalSettings) (clientKey : Option String) (env : Env)
    (kw : Kwargs) : ChatCompletionSettings :=
  let defaults : Kwargs := gs.azure_openai
  let s := baseInit env (dictMerge defaults kw)
  if truthy clientKey && !truthy s.api_key then
    { s with api_key := clientKey }
  else s

/-- Modelled from the spec: the secret wrapper's string rendering.  The
`api_key` field is declared as a pydantic `SecretStr` in the source; the
base class and rendering machinery are not among the provided sources, and
the spec requires that any string/debug rendering redact `apiKey`
unconditionally.  A set, non-empty secret renders as the fixed mask, an
empty secret renders empty, an unset field renders as None. -/
def secretStrRender : Option String → String
  | none => "None"
  | some s => if s = "" then "SecretStr()" else "SecretStr(**********)"

/-- Rendering of a plain optional string field. -/
def optRender : Option String → String
  | none => "None"
  | some s => s

/-- Modelled from the spec: the string/debug rendering of a constructed
`ChatCompletionSettings`, one `field=value` segment per declared field, the
`api_key` segment rendered through the secret wrapper. -/
def settingsRepr (s : ChatCompletionSettings) : String :=
  "api_key=" ++ secretStrRender s.api_key ++
  " api_type=" ++ s.api_type ++
  " api_base=" ++ optRender s.api_base ++
  " api_version=" ++ s.api_version ++
  " deployment_name=" ++ optRender s.deployment_name ++
  " max_tokens=" ++ toString s.max_tokens ++
  " temperature=" ++ toString s.temperature ++
  " request_timeout=" ++ toString s.request_timeout

/-- A structured function-call payload carried by an assistant message. -/
structure FunctionCall where
  name : String
  arguments : String
deriving DecidableEq

/-- One message object of a vendor response choice: the code reads its
`function_call` attribute, which is absent (None) for plain messages. -/
structure ChatMessage where
  role : String
  content : String
  function_call : Option FunctionCall
deriving DecidableEq

/-- One completion choice of the raw vendor response; the code accesses only
its `message` attribute. -/
structure Choice where
  message : ChatMessage
deriving DecidableEq

/-- The raw vendor response as used by the adapter: its list of choices, in
the vendor's returned order. -/
structure RawResponse where
  choices : List Choice
deriving DecidableEq

/-- The adapter's response wrapper around the raw vendor response. -/
structure ChatResponse where
  raw : RawResponse
deriving DecidableEq

/-- Result of `ChatResponse.message`: in Python it is either a single
message object or a list of message objects; the two dynamic shapes are the
two constructors. -/
inductive MessageResult where
  | single : ChatMessage → MessageResult
  | multiple : List ChatMessage → MessageResult
deriving DecidableEq

/-- Result of `ChatResponse.function_call`: a single optional payload or a
list of optional payloads, mirroring the arity of `message`. -/
inductive FunctionCallResult where
  | single : Option FunctionCall → FunctionCallResult
  | multiple : List (Option FunctionCall) → FunctionCallResult
deriving DecidableEq

/-- `ChatResponse.message`: if the raw response has exactly one choice,
the single message of that choice; otherwise the list of the choices'
messages in order (`[x.message for x in self.raw.choices]`). -/
def ChatResponse.message (r : ChatResponse) : MessageResult :=
  match r.raw.choices with
  | [c] => .single c.message
  | cs => .multiple (cs.map fun x => x.message)

/-- `ChatResponse.function_call`: if `self.message` is a list, the list of
each message's `function_call` attribute; otherwise the single message's
`function_call` attribute (None when absent). -/
def ChatResponse.function_call (r : ChatResponse) : FunctionCallResult :=
  match r.message with
  | .multiple ms => .multiple (ms.map fun m => m.function_call)
  | .single m => .single m.function_call

/-! Concrete sample inputs used by counterexamples and witnesses. -/

/-- Empty keyword-argument dictionary. -/
def kwEmpty : Kwargs := {}

/-- Environment with neither api-key variable set. -/
def envNone : Env := ⟨none, none⟩

/-- Environment with both `MARVIN_AZURE_OPENAI_API_KEY` and
`OPENAI_API_KEY` set. -/
def envBoth : Env := ⟨some "AZKEY", some "OPENKEY"⟩

/-- Environment with only the generic `OPENAI_API_KEY` set. -/
def envGenericY : Env := ⟨none, some "Y"⟩

/-- Process-wide settings with an empty `azure_openai` sub-section, the
stock tuning values and no generic key. -/
def gsPlain : GlobalSettings :=
  { azure_openai := {}, llm_max_tokens := 1500, llm_temperature := 0.8,
    llm_request_timeout_seconds := 600, openai_section_api_key := none }

/-- Process-wide settings whose global tuning values differ from every
hard-coded field default. -/
def gsTuning999 : GlobalSettings :=
  { azure_openai := {}, llm_max_tokens := 999, llm_temperature := 1/2,
    llm_request_timeout_seconds := 60, openai_section_api_key := none }

/-- A second settings state with a distinctive global `llm_max_tokens`. -/
def gsTuning4096 : GlobalSettings :=
  { azure_openai := {}, llm_max_tokens := 4096, llm_temperature := 0.8,
    llm_request_timeout_seconds := 600, openai_section_api_key := none }

/-- A sample function-call payload. -/
def fcLookup : FunctionCall := ⟨"lookup", "q=1"⟩

/-- A plain assistant message without a function call. -/
def msgPlainA : ChatMessage := ⟨"assistant", "hello", none⟩

/-- An assistant message carrying a function call. -/
def msgCall : ChatMessage := ⟨"assistant", "", some fcLookup⟩

/-- Another plain assistant message. -/
def msgPlainB : ChatMessage := ⟨"assistant", "bye", none⟩

/-- A response with exactly one choice. -/
def respOne : ChatResponse := ⟨⟨[⟨msgPlainA⟩]⟩⟩

/-- A response with three choices, the middle one carrying a function
call. -/
def respThree : ChatResponse := ⟨⟨[⟨msgPlainA⟩, ⟨msgCall⟩, ⟨msgPlainB⟩]⟩⟩

/-- A response with an empty list of choices. -/
def respEmpty : ChatResponse := ⟨⟨[]⟩⟩

/-- Explicit keyword arguments for the round-trip check. -/
def kwExplicit : Kwargs := { api_key := some "k", api_base := some "https://x" }

/-- A resolved settings record used by the rendering witness. -/
def sampleSettings : ChatCompletionSettings :=
  { api_key := none, api_type := "azure", api_base := some "https://x",
    api_version := "2023-07-01-preview", deployment_name := none,
    max_tokens := 1500, temperature := 0.8, request_timeout := 600 }

/-! Theorems. -/

/-- C1: the claim states that constructing `ChatCompletionSettings`
applies the global-LLM-tuning layer (for `max_tokens`, `temperature`,
`request_timeout`) above the provider sub-section and below explicit
keyword arguments.  The effective constructor is the SECOND `__init__`
definition, which shadows the first and never applies that layer: at a
settings state with tuning values 999 / (1/2) / 60, an empty sub-section
and no keyword arguments, it yields the hard-coded defaults 1500 / 0.8 /
600, while the shadowed first definition yields the tuning values the
claim (and the spec) describe. -/
theorem effective_init_ignores_global_tuning :
    (initSecond gsTuning999 none envNone kwEmpty).max_tokens = 1500 ∧
    (initSecond gsTuning999 none envNone kwEmpty).temperature = 0.8 ∧
    (initSecond gsTuning999 none envNone kwEmpty).request_timeout = 600 ∧
    (initFirst gsTuning999 none envNone kwEmpty).max_tokens = 999 ∧
    (initFirst gsTuning999 none envNone kwEmpty).temperature = 1/2 ∧
    (initFirst gsTuning999 none envNone kwEmpty).request_timeout = 60 :=
  ⟨by decide, rfl, rfl, by decide, rfl, rfl⟩

/-- C2: the two same-named constructor definitions are not equivalent.  At
a settings state with global `llm_max_tokens = 4096`, an empty sub-section
and empty keyword arguments, the first definition applies the
global-tuning layer (`max_tokens = 4096`) while the later redefinition
yields the hard-coded default 1500, so the constructed records differ. -/
theorem first_and_second_init_differ :
    initFirst gsTuning4096 none envNone kwEmpty ≠
      initSecond gsTuning4096 none envNone kwEmpty ∧
    (initFirst gsTuning4096 none envNone kwEmpty).max_tokens =
      gsTuning4096.llm_max_tokens ∧
    (initSecond gsTuning4096 none envNone kwEmpty).max_tokens = 1500 := by
  refine ⟨fun h => ?_, by decide, by decide⟩
  exact absurd (congrArg ChatCompletionSettings.max_tokens h) (by decide)

/-- C3 counterexample: with no api key available from any source
(no keyword argument, empty sub-section, neither environment variable,
no global client key, no generic settings key), construction does NOT fail:
the effective constructor returns a fully-populated record whose `api_key`
is unset.  No configuration-error path exists in the code. -/
theorem no_key_construction_succeeds_cex :
    initSecond gsPlain none envNone kwEmpty =
      { api_key := none, api_type := "azure", api_base := none,
        api_version := "2023-07-01-preview", deployment_name := none,
        max_tokens := 1500, temperature := 0.8, request_timeout := 600 } :=
  rfl

/-- C3 amended: when no api key is available from any source, construction
succeeds and leaves `api_key` unset (None); no `ConfigurationError` is
raised. -/
theorem no_key_resolves_to_none (gs : GlobalSettings)
    (clientKey : Option String) (env : Env) (kw : Kwargs)
    (h1 : kw.api_key = none) (h2 : gs.azure_openai.api_key = none)
    (h3 : env.marvin_azure_openai_api_key = none)
    (_h4 : env.openai_api_key = none) (h5 : clientKey = none)
    (_h6 : gs.openai_section_api_key = none) :
    (initSecond gs clientKey env kw).api_key = none := by
  simp [initSecond, baseInit, dictMerge, pick, truthy, h1, h2, h3, h5]

/-- C3 witness: the amended statement at the concrete all-unset input. -/
theorem no_key_resolves_to_none_witness :
    (kwEmpty.api_key = none ∧ gsPlain.azure_openai.api_key = none ∧
      envNone.marvin_azure_openai_api_key = none ∧
      envNone.openai_api_key = none ∧
      gsPlain.openai_section_api_key = none) ∧
    (initSecond gsPlain none envNone kwEmpty).api_key = none :=
  ⟨⟨rfl, rfl, rfl, rfl, rfl⟩,
    no_key_resolves_to_none gsPlain none envNone kwEmpty rfl rfl rfl rfl rfl rfl⟩

/-- C4: with `MARVIN_AZURE_OPENAI_API_KEY = X` (non-empty) and
`OPENAI_API_KEY = Y` both set, no explicit `api_key` argument and no
sub-section key, the constructed settings resolve `api_key` to `X`:
the provider-specific variable wins, and the later fallback sources
(the global client key, in particular) are not consulted, whatever their
values. -/
theorem provider_env_key_wins (gs : GlobalSettings)
    (clientKey : Option String) (env : Env) (kw : Kwargs) (X Y : String)
    (h1 : kw.api_key = none) (h2 : gs.azure_openai.api_key = none)
    (h3 : env.marvin_azure_openai_api_key = some X) (hX : X ≠ "")
    (_h5 : env.openai_api_key = some Y) :
    (initSecond gs clientKey env kw).api_key = some X := by
  have hT : truthy (some X) = true := by simp [truthy, hX]
  simp [initSecond, baseInit, dictMerge, pick, h1, h2, h3, hT, hX]

/-- C4 witness: both variables set concretely, with a global client key
also present; the provider-specific value is the one resolved. -/
theorem provider_env_key_wins_witness :
    (kwEmpty.api_key = none ∧ gsPlain.azure_openai.api_key = none ∧
      envBoth.marvin_azure_openai_api_key = some "AZKEY" ∧
      ("AZKEY" : String) ≠ "" ∧ envBoth.openai_api_key = some "OPENKEY") ∧
    (initSecond gsPlain (some "CLIENTKEY") envBoth kwEmpty).api_key =
      some "AZKEY" :=
  ⟨⟨rfl, rfl, rfl, by decide, rfl⟩,
    provider_env_key_wins gsPlain (some "CLIENTKEY") envBoth kwEmpty
      "AZKEY" "OPENKEY" rfl rfl rfl (by decide) rfl⟩

/-- C5 counterexample: with only `OPENAI_API_KEY = "Y"` set, the
provider-specific variable unset, no explicit argument, no sub-section key
and no pre-configured global client key, the effective constructor leaves
`api_key` unset rather than resolving it to `"Y"`: the generic environment
variable is consulted only by the shadowed first constructor definition. -/
theorem generic_env_key_not_consulted_cex :
    (initSecond gsPlain none envGenericY kwEmpty).api_key ≠ some "Y" ∧
    (initSecond gsPlain none envGenericY kwEmpty).api_key = none := by
  decide

/-- C5 amended: with only `OPENAI_API_KEY = Y` (non-empty) set, the
provider-specific variable unset, no explicit `api_key` argument and no
sub-section key, the constructed settings resolve `api_key` to `Y`
precisely when the pre-configured global client key equals `Y` (as the
vendor SDK sets it from `OPENAI_API_KEY`); with no global client key,
`api_key` remains unset — the environment variable `OPENAI_API_KEY` itself
is never consulted by the effective constructor. -/
theorem generic_env_key_via_client (gs : GlobalSettings)
    (clientKey : Option String) (env : Env) (kw : Kwargs) (Y : String)
    (h1 : kw.api_key = none) (h2 : gs.azure_openai.api_key = none)
    (h3 : env.marvin_azure_openai_api_key = none)
    (_h4 : env.openai_api_key = some Y) (hY : Y ≠ "") :
    (clientKey = some Y →
      (initSecond gs clientKey env kw).api_key = some Y) ∧
    (clientKey = none → (initSecond gs clientKey env kw).api_key = none) := by
  have hT : truthy (some Y) = true := by simp [truthy, hY]
  constructor <;> intro hc <;>
    simp [initSecond, baseInit, dictMerge, pick, truthy, h1, h2, h3, hc, hT,
      hY]

/-- C5 witness: the amended statement at the concrete input where the
global client carries the generic key. -/
theorem generic_env_key_via_client_witness :
    (kwEmpty.api_key = none ∧ gsPlain.azure_openai.api_key = none ∧
      envGenericY.marvin_azure_openai_api_key = none ∧
      envGenericY.openai_api_key = some "Y" ∧ ("Y" : String) ≠ "") ∧
    (initSecond gsPlain (some "Y") envGenericY kwEmpty).api_key = some "Y" :=
  ⟨⟨rfl, rfl, rfl, rfl, by decide⟩,
    (generic_env_key_via_client gsPlain (some "Y") envGenericY kwEmpty "Y"
      rfl rfl rfl rfl (by decide)).1 rfl⟩

/-- C9: round-trip of explicit constructor arguments.  Whatever the
process-wide settings, environment and global client key, explicit
`api_base` and (non-empty) `api_key` keyword arguments are read back
unchanged from the constructed record: explicit overrides are never
replaced by defaults, sub-section values, environment values or the client
fallback. -/
theorem explicit_kwargs_roundtrip (gs : GlobalSettings)
    (clientKey : Option String) (env : Env) (kw : Kwargs) (b k : String)
    (hb : kw.api_base = some b) (hk : kw.api_key = some k) (hne : k ≠ "") :
    (initSecond gs clientKey env kw).api_base = some b ∧
    (initSecond gs clientKey env kw).api_key = some k := by
  have hT : truthy (some k) = true := by simp [truthy, hne]
  simp [initSecond, baseInit, dictMerge, pick, hb, hk, hT, hne]

/-- C9 witness: `api_base = "https://x"`, `api_key = "k"` survive
construction even with every competing source populated. -/
theorem explicit_kwargs_roundtrip_witness :
    (kwExplicit.api_base = some "https://x" ∧
      kwExplicit.api_key = some "k" ∧ ("k" : String) ≠ "") ∧
    (initSecond gsPlain (some "CLIENTKEY") envBoth kwExplicit).api_base =
      some "https://x" ∧
    (initSecond gsPlain (some "CLIENTKEY") envBoth kwExplicit).api_key =
      some "k" :=
  ⟨⟨rfl, rfl, by decide⟩,
    explicit_kwargs_roundtrip gsPlain (some "CLIENTKEY") envBoth kwExplicit
      "https://x" "k" rfl rfl (by decide)⟩

/-- C6: arity branching of `ChatResponse.message`.  A raw response with
exactly one choice yields the single message object of that choice (not a
one-element sequence); a raw response with two or more choices yields the
ordered list of the choices' messages, in the vendor's returned order. -/
theorem message_arity_branching (r : ChatResponse) :
    (∀ c : Choice, r.raw.choices = [c] →
      r.message = MessageResult.single c.message) ∧
    (2 ≤ r.raw.choices.length →
      r.message =
        MessageResult.multiple (r.raw.choices.map fun x => x.message)) := by
  obtain ⟨⟨cs⟩⟩ := r
  constructor
  · intro c h
    have h2 : cs = [c] := h
    subst h2
    rfl
  · intro h
    rcases cs with _ | ⟨a, _ | ⟨b, t⟩⟩
    · rfl
    · simp at h
    · rfl

/-- C6 witness: the single-choice response yields a `single` message, the
three-choice response yields the ordered `multiple` list. -/
theorem message_arity_branching_witness :
    (respOne.raw.choices = [⟨msgPlainA⟩] ∧
      2 ≤ respThree.raw.choices.length) ∧
    respOne.message = MessageResult.single msgPlainA ∧
    respThree.message =
      MessageResult.multiple [msgPlainA, msgCall, msgPlainB] :=
  ⟨⟨rfl, by decide⟩,
    (message_arity_branching respOne).1 ⟨msgPlainA⟩ rfl,
    (message_arity_branching respThree).2 (by decide)⟩

/-- C7: for a raw response with exactly three choices, `message` is the
ordered three-element list of the choices' messages and `function_call` is
the ordered three-element list of their `function_call` payloads, entries
for choices without a function call preserved positionally as None; the
call neither fails nor drops or reorders entries (both results are the
positional `map` over the choices). -/
theorem three_choices_message_and_function_call (r : ChatResponse)
    (h : r.raw.choices.length = 3) :
    r.message =
      MessageResult.multiple (r.raw.choices.map fun x => x.message) ∧
    (r.raw.choices.map fun x => x.message).length = 3 ∧
    r.function_call =
      FunctionCallResult.multiple
        (r.raw.choices.map fun x => x.message.function_call) ∧
    (r.raw.choices.map fun x => x.message.function_call).length = 3 := by
  obtain ⟨⟨cs⟩⟩ := r
  rcases cs with _ | ⟨a, _ | ⟨b, _ | ⟨c, _ | ⟨d, t⟩⟩⟩⟩
  · simp at h
  · simp at h
  · simp at h
  · exact ⟨rfl, rfl, rfl, rfl⟩
  · simp only [List.length_cons] at h
    omega

/-- C7 witness: the concrete three-choice response, whose middle choice
carries a function call, yields length-3 results with the None entries in
first and third position. -/
theorem three_choices_witness :
    respThree.raw.choices.length = 3 ∧
    (respThree.message =
        MessageResult.multiple [msgPlainA, msgCall, msgPlainB] ∧
      (respThree.raw.choices.map fun x => x.message).length = 3 ∧
      respThree.function_call =
        FunctionCallResult.multiple [none, some fcLookup, none] ∧
      (respThree.raw.choices.map fun x => x.message.function_call).length =
        3) :=
  ⟨rfl, three_choices_message_and_function_call respThree rfl⟩

/-- C10: for a raw response whose choices list is empty, `message` is the
empty list (the plural branch, not an error and not a single object), and
`function_call` is likewise the empty list. -/
theorem empty_choices_plural_branch (r : ChatResponse)
    (h : r.raw.choices = []) :
    r.message = MessageResult.multiple [] ∧
    r.function_call = FunctionCallResult.multiple [] := by
  obtain ⟨⟨cs⟩⟩ := r
  rcases cs with _ | ⟨a, t⟩
  · exact ⟨rfl, rfl⟩
  · exact absurd h (List.cons_ne_nil a t)

/-- C10 witness: the concrete empty-choices response. -/
theorem empty_choices_plural_branch_witness :
    respEmpty.raw.choices = ([] : List Choice) ∧
    (respEmpty.message = MessageResult.multiple [] ∧
      respEmpty.function_call = FunctionCallResult.multiple []) :=
  ⟨rfl, empty_choices_plural_branch respEmpty rfl⟩

/-- C8: the string/debug rendering of a constructed settings record never
reveals the api key: any set, non-empty key renders as the fixed mask, and
the whole rendering is identical for any two non-empty key values —
so the rendering carries no information about the secret, whichever source
supplied it. -/
theorem settings_render_redacts_key (s : ChatCompletionSettings)
    (k₁ k₂ : String) (h1 : k₁ ≠ "") (h2 : k₂ ≠ "") :
    secretStrRender (some k₁) = "SecretStr(**********)" ∧
    settingsRepr { s with api_key := some k₁ } =
      settingsRepr { s with api_key := some k₂ } := by
  simp [settingsRepr, secretStrRender, h1, h2]

/-- C8 witness: two concrete distinct keys render identically, through the
fixed mask. -/
theorem settings_render_redacts_key_witness :
    (("sk-one" : String) ≠ "" ∧ ("sk-two" : String) ≠ "") ∧
    secretStrRender (some "sk-one") = "SecretStr(**********)" ∧
    settingsRepr { sampleSettings with api_key := some "sk-one" } =
      settingsRepr { sampleSettings with api_key := some "sk-two" } :=
  ⟨⟨by decide, by decide⟩,
    settings_render_redacts_key sampleSettings "sk-one" "sk-two"
      (by decide) (by decide)⟩
